import Mathlib

/-!
Verification development for the cloud_eval repository.

Each Python source construct consulted by the claims is embedded as a Lean
definition. Floating-point numbers are modelled as rationals (ℚ), Python
dicts as association lists or as key-indexed partial maps, and fallible
Python code (code that can raise) as Except-valued functions. Wall-clock
reads, network calls and subprocess executions are supplied by explicit
oracles, so every definition is executable on concrete inputs.
-/

/-! ## Small helpers shared by the embeddings -/

/-- Lookup in an association list; models Python `dict.get(key)` (a dict has
unique keys, so first-match lookup is faithful). -/
def dictGet {β : Type} (d : List (String × β)) (k : String) : Option β :=
  match d with
  | [] => none
  | (k', v) :: rest => if k' = k then some v else dictGet rest k

/-- ASCII space-like characters; models the whitespace stripped by Python
`str.strip()` for the ASCII inputs this program handles. -/
def isSpaceChar (c : Char) : Bool :=
  c = ' ' ∨ c = '\t' ∨ c = '\n' ∨ c = '\r'

/-- Models Python `str.strip()` (ASCII whitespace). -/
def pyStrip (s : String) : String :=
  String.mk (((s.toList.dropWhile isSpaceChar).reverse.dropWhile isSpaceChar).reverse)

/-- Models Python `str.lower()` for ASCII strings. -/
def asciiLower (s : String) : String :=
  String.mk (s.toList.map (fun c =>
    if 'A' ≤ c ∧ c ≤ 'Z' then Char.ofNat (c.toNat + 32) else c))

/-- Round a rational to the nearest integer, ties to even; models Python
`round` applied to an exactly-representable value. -/
def roundHalfEven (x : ℚ) : ℤ :=
  let f := ⌊x⌋
  let r := x - (f : ℚ)
  if r < 1/2 then f
  else if 1/2 < r then f + 1
  else if f % 2 = 0 then f else f + 1

/-- Models Python `round(x, n)`. -/
def pyRound (x : ℚ) (n : ℕ) : ℚ :=
  (roundHalfEven (x * 10 ^ n) : ℚ) / 10 ^ n

/-- Models the clamp `max(0.0, min(1.0, x))` used by the scoring code. -/
def clamp01 (x : ℚ) : ℚ := max 0 (min 1 x)

theorem roundHalfEven_intCast (k : ℤ) : roundHalfEven (k : ℚ) = k := by
  unfold roundHalfEven
  simp

theorem pyRound_eq_self_of_mul_eq_int (x : ℚ) (n : ℕ) (k : ℤ)
    (h : x * 10 ^ n = (k : ℚ)) : pyRound x n = x := by
  unfold pyRound
  rw [h, roundHalfEven_intCast, ← h]
  have hpow : ((10 : ℚ) ^ n) ≠ 0 := by positivity
  field_simp

/-! ## Embedding of src/cloud_eval/summary.py

Python dicts used as counters (`by_task`, `by_difficulty`, `by_model`,
`by_model_difficulty`) are modelled as key-indexed partial maps
`String → Option _`. A Python dict additionally remembers key insertion
order, which only affects the key order of the JSON rendering, never the
per-key statistics the claims are about. -/

/-- Embeds the `TaskSummary` dataclass. -/
structure TaskSummary where
  count : ℕ
  passed : ℕ
  failed : ℕ
  with_score : ℕ
  total_score : ℚ
deriving DecidableEq, Repr

/-- Fresh `TaskSummary()` with all counters zero. -/
def TaskSummary.init : TaskSummary := ⟨0, 0, 0, 0, 0⟩

/-- Embeds the `Summary` dataclass. -/
structure Summary where
  total_reports : ℕ
  passed : ℕ
  failed : ℕ
  with_score : ℕ
  total_score : ℚ
  by_task : String → Option TaskSummary
  by_difficulty : String → Option ℕ
  by_model : String → Option TaskSummary
  by_model_difficulty : String → String → Option TaskSummary

/-- Fresh `Summary()` with all counters zero and empty maps. -/
def Summary.init : Summary :=
  ⟨0, 0, 0, 0, 0, fun _ => none, fun _ => none, fun _ => none, fun _ _ => none⟩

/-- Embeds `Summary.to_dict` / `TaskSummary.to_dict` scalar statistics:
`avg_score = round(total/with_score, 4)` (0.0 when nothing scored) and
`pass_rate = round(passed/total, 4)` (0.0 when no reports). -/
def Summary.headline (s : Summary) : ℚ × ℚ :=
  (pyRound (if s.with_score = 0 then 0 else s.total_score / s.with_score) 4,
   pyRound (if s.total_reports = 0 then 0 else (s.passed : ℚ) / s.total_reports) 4)

/-- The fields of one parsed report JSON that `aggregate_reports` consults.
`verification` is `some b` when the report's verification dict is present and
non-empty, with `b = bool(verification.get("passed"))`; `none` models an
absent or empty (falsy) verification dict. `metrics_score` is
`metrics.get("score")` (with an absent/falsy metrics dict giving `none`).
`difficulty` / `model` are `some` only when the JSON value is a string. -/
structure ReportData where
  verification : Option Bool
  metrics_score : Option ℚ
  task_id : Option String
  difficulty : Option String
  model : Option String
deriving DecidableEq, Repr

/-- One file visited by `report_root.rglob("*.json")`: its filename plus the
result of `json.loads` (`none` models an unparseable report file). -/
abbrev ReportFile := String × Option ReportData

/-- Embeds the body of `_update_task` (the counter bumps applied to one
`TaskSummary` entry). -/
def bumpTask (e : TaskSummary) (score : Option ℚ) (passed : Bool) : TaskSummary :=
  { count := e.count + 1,
    passed := e.passed + (if passed then 1 else 0),
    failed := e.failed + (if passed then 0 else 1),
    with_score := e.with_score + (match score with | some _ => 1 | none => 0),
    total_score := e.total_score + (match score with | some v => v | none => 0) }

/-- Embeds `_update_task(container, key, score, passed)`:
`container.setdefault(key, TaskSummary())` followed by the counter bumps. -/
def updateTask (m : String → Option TaskSummary) (key : String)
    (score : Option ℚ) (passed : Bool) : String → Option TaskSummary :=
  fun k =>
    if k = key then some (bumpTask ((m key).getD TaskSummary.init) score passed)
    else m k

/-- Embeds `data.get("task_id") or "unknown"` (empty string is falsy). -/
def taskKey (r : ReportData) : String :=
  match r.task_id with
  | none => "unknown"
  | some t => if t = "" then "unknown" else t

/-- Embeds `isinstance(model, str) and model.strip()`: the by-model key, when
the report has a non-blank string model. -/
def modelKey (r : ReportData) : Option String :=
  match r.model with
  | none => none
  | some m => if pyStrip m = "" then none else some (pyStrip m)

/-- Embeds the normalized difficulty key `difficulty.strip().lower()`. -/
def difficultyKey (r : ReportData) : Option String :=
  match r.difficulty with
  | none => none
  | some d => some (asciiLower (pyStrip d))

/-- Embeds the pass/fail decision
`bool(verification.get("passed")) if verification else bool(metrics.get("score"))`
(`bool` of an absent score or a 0.0 score is false). -/
def reportPassed (r : ReportData) : Bool :=
  match r.verification with
  | some b => b
  | none => match r.metrics_score with
            | some q => decide (q ≠ 0)
            | none => false

/-- Embeds the `by_difficulty` counter bump: increment the normalized
difficulty bucket when the report declares a string difficulty. -/
def bumpDifficulty (m : String → Option ℕ) (dk : Option String) :
    String → Option ℕ :=
  match dk with
  | none => m
  | some k0 => fun k => if k = k0 then some ((m k0).getD 0 + 1) else m k

/-- Embeds the `by_model` bump: `_update_task` on the model key when the
report declares a non-blank string model. -/
def bumpModel (m : String → Option TaskSummary) (mk : Option String)
    (score : Option ℚ) (passed : Bool) : String → Option TaskSummary :=
  match mk with
  | none => m
  | some k0 => updateTask m k0 score passed

/-- Embeds the `by_model_difficulty` bump: `_update_task` on the inner
difficulty map of `by_model_difficulty.setdefault(model_key, {})`, performed
only when both a model key and a string difficulty are present. -/
def bumpModelDifficulty (m : String → String → Option TaskSummary)
    (mk dk : Option String) (score : Option ℚ) (passed : Bool) :
    String → String → Option TaskSummary :=
  match mk, dk with
  | some k0, some d0 =>
      fun m' => if m' = k0 then updateTask (m k0) d0 score passed else m m'
  | _, _ => m

/-- Embeds the loop body of `aggregate_reports` for one successfully parsed
report. -/
def updateSummary (s : Summary) (r : ReportData) : Summary :=
  let score := r.metrics_score
  let passed := reportPassed r
  { total_reports := s.total_reports + 1,
    passed := s.passed + (if passed then 1 else 0),
    failed := s.failed + (if passed then 0 else 1),
    with_score := s.with_score + (match score with | some _ => 1 | none => 0),
    total_score := s.total_score + (match score with | some v => v | none => 0),
    by_task := updateTask s.by_task (taskKey r) score passed,
    by_difficulty := bumpDifficulty s.by_difficulty (difficultyKey r),
    by_model := bumpModel s.by_model (modelKey r) score passed,
    by_model_difficulty :=
      bumpModelDifficulty s.by_model_difficulty (modelKey r) (difficultyKey r)
        score passed }

/-- Embeds one iteration of the `rglob` loop in `aggregate_reports`: the
rollup file `summary.json` is skipped, a file whose `json.loads` fails is
skipped, and every other file is folded in. -/
def summaryStep (s : Summary) (f : ReportFile) : Summary :=
  if f.1 = "summary.json" then s
  else match f.2 with
       | none => s
       | some r => updateSummary s r

/-- Embeds `aggregate_reports(report_root)` over the list of JSON files the
directory scan visits. -/
def aggregate_reports (files : List ReportFile) : Summary :=
  files.foldl summaryStep Summary.init

/-! ## Embedding of src/cloud_eval/verifier.py

The pydantic models validate their numeric fields at construction time
(`Field(..., ge=..., le=...)`), and `ScoringWeights` runs the
`weights_sum_to_one` field validator. Construction is therefore embedded as
an Except-valued smart constructor over a raw record; a pydantic
`ValidationError` is the `.error` case. -/

/-- Raw fields of the `ScoringComponent` pydantic model. -/
structure ScoringComponent where
  name : String
  label : String
  weight : ℚ
  description : String
  value : ℚ
deriving DecidableEq, Repr

/-- Embeds `ScoringComponent(...)` construction: pydantic validates
`weight ∈ [0,1]` and `value ∈ [0,1]`. -/
def mkScoringComponent (name label : String) (weight : ℚ) (description : String)
    (value : ℚ) : Except String ScoringComponent :=
  if ¬ (0 ≤ weight ∧ weight ≤ 1) then .error "weight out of range"
  else if ¬ (0 ≤ value ∧ value ≤ 1) then .error "value out of range"
  else .ok ⟨name, label, weight, description, value⟩

/-- Raw fields of the `ScoringWeights` pydantic model: its `components`
dict, keyed by component name. -/
structure ScoringWeights where
  components : List (String × ScoringComponent)
deriving DecidableEq, Repr

/-- Embeds `sum(comp.weight for comp in v.values())` from the
`weights_sum_to_one` validator. -/
def weightTotal (components : List (String × ScoringComponent)) : ℚ :=
  (components.map (fun p => p.2.weight)).sum

/-- Embeds `ScoringWeights(components=...)` construction: the
`weights_sum_to_one` field validator accepts exactly the totals inside
`[0.99, 1.01]` and raises a `ValueError` (a fatal construction error)
otherwise. -/
def mkScoringWeights (components : List (String × ScoringComponent)) :
    Except String ScoringWeights :=
  if 99/100 ≤ weightTotal components ∧ weightTotal components ≤ 101/100 then
    .ok ⟨components⟩
  else .error "Scoring weights must sum to 1.0"

/-- Raw fields of the `ScoringComponentResult` pydantic model. -/
structure ScoringComponentResult where
  label : String
  description : String
  value : ℚ
  max : ℚ
deriving DecidableEq, Repr

/-- Embeds `ScoringComponentResult(...)` construction: pydantic validates
`value ∈ [0,1]` and `max ∈ [0,1]`; no relation between `value` and `max`
is checked. -/
def mkScoringComponentResult (label description : String) (value maxWeight : ℚ) :
    Except String ScoringComponentResult :=
  if ¬ (0 ≤ value ∧ value ≤ 1) then .error "value out of range"
  else if ¬ (0 ≤ maxWeight ∧ maxWeight ≤ 1) then .error "max out of range"
  else .ok ⟨label, description, value, maxWeight⟩

/-- Raw fields of the `VerificationResult` pydantic model (`score_details`
carries no numeric constraints and is omitted). -/
structure VerificationResult where
  score : ℚ
  components : List (String × ScoringComponentResult)
  passed : Bool
  errors : List String
deriving DecidableEq, Repr

/-- Embeds `VerificationResult(...)` construction: pydantic validates
`score ∈ [0,1]`; the `components` argument is a dict of already-constructed
`ScoringComponentResult` instances, which pydantic does not re-validate. -/
def mkVerificationResult (score : ℚ) (components : List (String × ScoringComponentResult))
    (passed : Bool) (errors : List String) : Except String VerificationResult :=
  if ¬ (0 ≤ score ∧ score ≤ 1) then .error "score out of range"
  else .ok ⟨score, components, passed, errors⟩

/-! ## Embedding of src/cloud_eval/tools.py -/

/-- Embeds `BEST_PRACTICE_TAG_KEYS`. -/
def BEST_PRACTICE_TAG_KEYS : List String :=
  ["environment", "project", "service", "team", "owner", "contact",
   "cost_center", "billing", "application", "stack", "department", "managed_by"]

/-- Embeds `compute_best_practice_tag_score(tags, cap, split, best_practice_keys)`.
`tags` is the tag dict (only its keys matter), `bpKeys = none` models the
`best_practice_keys=None` default, and a `some []` argument is falsy in
Python so it also selects the default key list. -/
def compute_best_practice_tag_score (tags : List (String × String)) (cap : ℚ)
    (split : ℚ) (bpKeys : Option (List String)) : ℚ :=
  if cap ≤ 0 then 0
  else
    let keys := match bpKeys with
                | none => BEST_PRACTICE_TAG_KEYS
                | some ks => if ks = [] then BEST_PRACTICE_TAG_KEYS else ks
    let perTag := if split = 0 then cap else cap / split
    let normalized := tags.map (fun p => asciiLower (pyStrip p.1))
    let matchCount := (keys.filter (fun key => normalized.contains key)).length
    min ((matchCount : ℚ) * perTag) cap

/-- Result dict returned by one `subprocess.run` invocation (the external
process world, supplied by an oracle). -/
structure SubprocessResult where
  returncode : ℤ
  stdout : String
  stderr : String
deriving DecidableEq, Repr

/-- Result dict returned by `aws_cli_tool`. -/
structure ToolResult where
  command : String
  invoked_command : String
  return_code : ℤ
  stdout : String
  stderr : String
deriving DecidableEq, Repr

/-- Splits on ASCII whitespace; models `shlex.split` for command strings
without quoting (the only shape this program feeds it). -/
def splitWsAux (cs : List Char) (cur : List Char) (acc : List (List Char)) :
    List (List Char) :=
  match cs with
  | [] => if cur = [] then acc.reverse else (cur.reverse :: acc).reverse
  | c :: rest =>
      if isSpaceChar c then
        if cur = [] then splitWsAux rest [] acc
        else splitWsAux rest [] (cur.reverse :: acc)
      else splitWsAux rest (c :: cur) acc

/-- Models `shlex.split` on quote-free input. -/
def shlexSplitSimple (s : String) : List String :=
  (splitWsAux s.toList [] []).map String.mk

/-- Embeds the `--endpoint-url` stripping loop of `_build_aws_command`
(the `skip_next` state machine). -/
def cleanEndpointParts : List String → List String
  | [] => []
  | p :: rest =>
      if p = "--endpoint-url" then
        match rest with
        | [] => []
        | _ :: rest' => cleanEndpointParts rest'
      else if ("--endpoint-url=".toList).isPrefixOf p.toList then
        cleanEndpointParts rest
      else p :: cleanEndpointParts rest

/-- Models `" ".join(parts)`. -/
def joinSpace : List String → String
  | [] => ""
  | [x] => x
  | x :: rest => x ++ " " ++ joinSpace rest

/-- Embeds `_build_aws_command(command, endpoint)`: raises `ValueError` on a
blank command, strips any `--endpoint-url` override, drops a leading `aws`
token, and re-injects the evaluation endpoint. -/
def buildAwsCommand (command : String) (endpoint : String) :
    Except String (List String) :=
  if pyStrip command = "" then .error "command is required for aws_cli."
  else
    let parts := shlexSplitSimple command
    let cleaned := cleanEndpointParts parts
    let cleaned2 := match cleaned with
                    | [] => []
                    | c :: rest => if asciiLower c = "aws" then rest else cleaned
    .ok ("aws" :: "--endpoint-url" :: endpoint :: cleaned2)

/-- Embeds `aws_cli_tool(args, env)`. The subprocess outcome is supplied by
the `sp` oracle argument; raising (`ValueError` for a missing endpoint or
blank command, `KeyError` for a missing `command` argument) is the `.error`
case. The returned dict carries the exit code and stripped output streams
verbatim from the subprocess. -/
def aws_cli_tool (args : List (String × String)) (env : List (String × String))
    (sp : SubprocessResult) : Except String ToolResult :=
  match dictGet env "ENDPOINT_URL" with
  | none => .error "ENDPOINT_URL is required to run aws_cli."
  | some endpoint =>
      if endpoint = "" then .error "ENDPOINT_URL is required to run aws_cli."
      else
        match dictGet args "command" with
        | none => .error "KeyError: command"
        | some command =>
            match buildAwsCommand command endpoint with
            | .error e => .error e
            | .ok awsCommand =>
                .ok { command := command,
                      invoked_command := joinSpace awsCommand,
                      return_code := sp.returncode,
                      stdout := pyStrip sp.stdout,
                      stderr := pyStrip sp.stderr }

/-! ## Embedding of src/agents/openai_agent.py

The chat-completion API and the wall clock are supplied by an oracle: the
assistant message returned on turn `t` and the subprocess outcome / clock
reading for turn `t`. `json.loads` on tool-call arguments is supplied as a
function argument (`jsonLoads`), restricted to the flat string-object
payloads this program exchanges; `none` models a `JSONDecodeError`. -/

/-- Embeds the `message.function_call` payload. -/
structure FunctionCall where
  name : String
  arguments : String
deriving DecidableEq, Repr

/-- Embeds the assistant message fields the loop consults. -/
structure ModelMessage where
  content : Option String
  function_call : Option FunctionCall
deriving DecidableEq, Repr

/-- The external world of one agent run: the model response for each turn,
and the subprocess outcome and `time.time()` reading consumed on each turn. -/
structure AgentOracle where
  responses : ℕ → ModelMessage
  subprocess : ℕ → SubprocessResult
  clock : ℕ → ℚ

/-- Embeds the `ActionRecord` dict built by `_record_action`. The
`llm_trace` entry of `metadata` (prompt snapshot and assistant payload) is
carried verbatim from the conversation and is not consulted by any claim;
it is omitted here. -/
structure ActionRecord where
  timestamp : ℚ
  action : String
  resource : String
  status : String
  metadata_args : List (String × String)
  metadata_result : ToolResult
deriving DecidableEq, Repr

/-- Embeds a `ToolDefinition` as registered in `cloud_eval.tools.REGISTRY`.
The executor receives the parsed arguments, the environment and the
subprocess outcome for the invocation. -/
structure ToolDefinition where
  name : String
  description : String
  execute : List (String × String) → List (String × String) → SubprocessResult →
    Except String ToolResult

/-- The single tool registered at import time by tools.py. -/
def awsCliToolDef : ToolDefinition :=
  { name := "aws_cli",
    description := "Run a generic AWS CLI command against LocalStack.",
    execute := aws_cli_tool }

/-- Embeds `REGISTRY.get(name)`: module initialization registers exactly the
`aws_cli` tool. -/
def registryGet (name : String) : Option ToolDefinition :=
  if name = "aws_cli" then some awsCliToolDef else none

/-- Embeds `_resource_label(args, result)`:
`result.get("invoked_command") or args.get("command") or "aws_cli"`
(empty strings are falsy). -/
def resourceLabel (args : List (String × String)) (result : ToolResult) : String :=
  if result.invoked_command ≠ "" then result.invoked_command
  else match dictGet args "command" with
       | some c => if c ≠ "" then c else "aws_cli"
       | none => "aws_cli"

/-- Embeds `_record_action(tool, args, result, llm_trace)`: the status is
`"ok"` exactly when the result's `return_code` equals 0, and `"error"`
otherwise, independent of which tool produced the result. -/
def record_action (tool : ToolDefinition) (args : List (String × String))
    (result : ToolResult) (timestamp : ℚ) : ActionRecord :=
  { timestamp := timestamp,
    action := tool.name,
    resource := resourceLabel args result,
    status := if result.return_code = 0 then "ok" else "error",
    metadata_args := args,
    metadata_result := result }

/-- Embeds `_validate_env(env)`: `OPENAI_API_KEY` must be present, non-empty
and ASCII-encodable; a violation raises `ValueError`. -/
def validateEnv (env : List (String × String)) : Except String String :=
  let apiKey := (dictGet env "OPENAI_API_KEY").getD ""
  if apiKey = "" then .error "OPENAI_API_KEY is required"
  else if ¬ apiKey.toList.all (fun c => c.toNat ≤ 127) then
    .error "OPENAI_API_KEY must use ASCII characters"
  else .ok apiKey

/-- Embeds the `for _ in range(6)` body of `run_agent`, with `fuel` the
remaining range iterations, `turn` the current turn index into the oracle
and `acc` the reversed list of actions recorded so far. A turn proceeds:
read the model response; stop with the accumulated actions if it carries no
function call; parse its arguments (`json.loads` of `arguments or "{}"` —
an empty argument string parses as the empty object, and a parse failure is
an uncaught `JSONDecodeError` that aborts the whole call, discarding the
local `actions` list); stop with the accumulated actions if the registry
does not know the tool name; otherwise execute the tool (a raising executor
likewise aborts the call), record the action and continue. -/
def runAgentLoop (jsonLoads : String → Option (List (String × String)))
    (o : AgentOracle) (env : List (String × String)) :
    ℕ → ℕ → List ActionRecord → Except String (List ActionRecord)
  | 0, _, acc => .ok acc.reverse
  | fuel + 1, turn, acc =>
      match (o.responses turn).function_call with
      | none => .ok acc.reverse
      | some fc =>
          match (if fc.arguments = "" then some [] else jsonLoads fc.arguments) with
          | none => .error "JSONDecodeError"
          | some args =>
              match registryGet fc.name with
              | none => .ok acc.reverse
              | some tool =>
                  match tool.execute args env (o.subprocess turn) with
                  | .error e => .error e
                  | .ok result =>
                      runAgentLoop jsonLoads o env fuel (turn + 1)
                        (record_action tool args result (o.clock turn) :: acc)

/-- Embeds `run_agent(scenario_path, env)`: validate the environment, read
the model name (`env["OPENAI_MODEL"]`, a `KeyError` when absent), then run
the bounded interaction loop. Scenario loading only feeds the prompt text
and is not consulted by any claim. -/
def run_agent (jsonLoads : String → Option (List (String × String)))
    (o : AgentOracle) (env : List (String × String)) :
    Except String (List ActionRecord) :=
  match validateEnv env with
  | .error e => .error e
  | .ok _ =>
      match dictGet env "OPENAI_MODEL" with
      | none => .error "KeyError: OPENAI_MODEL"
      | some _ => runAgentLoop jsonLoads o env 6 0 []

/-! ## Embedding of src/cloud_eval/runner.py -/

/-- Embeds the `ActionLog` dataclass of runner.py (its opaque `metadata`
dict is not consulted by the scoring code and is omitted). -/
structure ActionLog where
  timestamp : ℚ
  action : String
  resource : String
  status : String
deriving DecidableEq, Repr

/-- Embeds the per-entry conversion in `_run_agent_module` from an agent
`ActionRecord` dict to a runner `ActionLog`. -/
def toActionLog (r : ActionRecord) : ActionLog :=
  { timestamp := r.timestamp, action := r.action,
    resource := r.resource, status := r.status }

/-- Embeds `EvaluationRunner._run_agent` around a configured agent module:
`_run_agent_module` is called and any exception it raises is caught at the
orchestrator boundary and replaced by an empty action list. -/
def runner_run_agent (jsonLoads : String → Option (List (String × String)))
    (o : AgentOracle) (env : List (String × String)) : List ActionLog :=
  match run_agent jsonLoads o env with
  | .ok records => records.map toActionLog
  | .error _ => []

/-- Embeds the `TaskMetadata` dataclass fields consulted here: note that the
configured step maximum `max_steps` lives on the metadata object
(scenario.py populates it from the top-level `max_steps` entry of
meta.json). Textual metadata fields are omitted. -/
structure TaskMetadata where
  task_id : String
  task_name : String
  max_steps : Option ℕ
deriving DecidableEq, Repr

/-- Embeds the `ScenarioScoring` dataclass of scenario.py: its only fields
are `weights` and `max_time_seconds`. -/
structure ScenarioScoring where
  weights : List (String × ℚ)
  max_time_seconds : Option ℚ
deriving DecidableEq, Repr

/-- Embeds the `Scenario` dataclass fields consulted by scoring. -/
structure Scenario where
  metadata : TaskMetadata
  scoring : ScenarioScoring
deriving DecidableEq, Repr

/-- Embeds the Python attribute read `self.scenario.scoring.max_steps`
performed by `EvaluationRunner._score`: the `ScenarioScoring` dataclass
defines no `max_steps` field (the configured maximum lives on
`TaskMetadata`), so the read raises `AttributeError`. -/
def scoringAttrMaxSteps (_s : ScenarioScoring) : Except String (Option ℕ) :=
  .error "AttributeError: ScenarioScoring object has no attribute max_steps"

/-- The fields of a `VerificationResult.model_dump()` dict that `_score`
consults (`verification.get("score")` and the metric passthrough keys). -/
structure VerificationDump where
  score : Option ℚ
  resource_correctness : Option ℚ
  security : Option ℚ
deriving DecidableEq, Repr

/-- Embeds the `metrics` dict assembled by `_score`. -/
structure ScoreMetrics where
  resource_correctness : Option ℚ
  security : Option ℚ
  duration_seconds : ℚ
  step_count : ℕ
  score : Option ℚ
  cost_estimate_usd : ℚ
  error_action_penalty : ℚ
deriving DecidableEq, Repr

/-- Embeds the computation of `_score` once its inputs are in hand — the
lines following the `max_steps` attribute read, applied to the scoring
weights, the two configured maxima, the recorded actions, the elapsed
duration and the optional verification dump. Python falsiness of
`not max_time` / `not max_steps` makes a configured maximum of 0 behave
like an absent one. The verifier override appears twice in the source with
identical effect and is embedded once. -/
def scoreBody (weights : List (String × ℚ)) (maxTime : Option ℚ)
    (maxSteps : Option ℕ) (actions : List ActionLog) (duration : ℚ)
    (verification : Option VerificationDump) : ScoreMetrics :=
  let actionCount := actions.length
  let latencyScore : ℚ :=
    match maxTime with
    | none => 1
    | some t => if t = 0 then 1 else clamp01 (1 - duration / t)
  let stepScore : ℚ :=
    match maxSteps with
    | none => 1
    | some m => if m = 0 then 1 else clamp01 (1 - (actionCount : ℚ) / (m : ℚ))
  let fallback : ℚ :=
    latencyScore * ((dictGet weights "latency").getD 0)
      + stepScore * ((dictGet weights "steps").getD 0)
  let scoreAfterVerifier : Option ℚ :=
    match verification with
    | none => some fallback
    | some v => match v.score with
                | none => some fallback
                | some s => some s
  let errorActions := (actions.filter (fun a => a.status = "error")).length
  let penalty := pyRound ((errorActions : ℚ) * (2 / 100)) 3
  let finalScore : Option ℚ :=
    match scoreAfterVerifier with
    | none => none
    | some s => some (max 0 (s - penalty))
  { resource_correctness := verification.bind (fun v => v.resource_correctness),
    security := verification.bind (fun v => v.security),
    duration_seconds := duration,
    step_count := actionCount,
    score := finalScore,
    cost_estimate_usd := 0,
    error_action_penalty := penalty }

/-- Embeds `EvaluationRunner._score` as written: it reads
`self.scenario.scoring.max_time_seconds` (present) and then
`self.scenario.scoring.max_steps` (absent — `AttributeError`), so the call
raises before any metric is computed. -/
def runner_score (sc : Scenario) (actions : List ActionLog) (duration : ℚ)
    (verification : Option VerificationDump) : Except String ScoreMetrics :=
  match scoringAttrMaxSteps sc.scoring with
  | .error e => .error e
  | .ok maxSteps =>
      .ok (scoreBody sc.scoring.weights sc.scoring.max_time_seconds maxSteps
        actions duration verification)

/-- Modelled from the spec: the fallback score named by the score
composition rule — a latency component and a step-count component, each
clamped to `[0,1]` and equal to 1.0 when no maximum is configured, each
multiplied by its configured weight, then summed. Used to compare the
code's scoring against the spec's words. -/
def specFallbackScore (weights : List (String × ℚ)) (maxTime : Option ℚ)
    (maxSteps : Option ℕ) (stepCount : ℕ) (duration : ℚ) : ℚ :=
  (match maxTime with
   | none => 1
   | some t => if t = 0 then 1 else clamp01 (1 - duration / t))
    * ((dictGet weights "latency").getD 0)
  + (match maxSteps with
     | none => 1
     | some m => if m = 0 then 1 else clamp01 (1 - (stepCount : ℚ) / (m : ℚ)))
    * ((dictGet weights "steps").getD 0)

/-- Modelled from the spec: the pre-penalty score — the verifier score when
one is available, else the fallback formula. -/
def specPrePenaltyScore (weights : List (String × ℚ)) (maxTime : Option ℚ)
    (maxSteps : Option ℕ) (actions : List ActionLog) (duration : ℚ)
    (verification : Option VerificationDump) : ℚ :=
  match verification with
  | some v => match v.score with
              | some s => s
              | none => specFallbackScore weights maxTime maxSteps actions.length duration
  | none => specFallbackScore weights maxTime maxSteps actions.length duration

/-- Modelled from the spec: `0.02 × (count of actions with status "error")`. -/
def specErrorPenalty (actions : List ActionLog) : ℚ :=
  (2 / 100) * ((actions.filter (fun a => a.status = "error")).length : ℚ)

/-! ## Theorems -/

theorem errorPenalty_round (actions : List ActionLog) :
    pyRound (((actions.filter (fun a => a.status = "error")).length : ℚ) * (2 / 100)) 3
      = specErrorPenalty actions := by
  set c := (actions.filter (fun a => a.status = "error")).length with hc
  have hx : ((c : ℚ) * (2 / 100)) * 10 ^ 3 = ((20 * c : ℤ) : ℚ) := by
    push_cast
    ring
  rw [pyRound_eq_self_of_mul_eq_int _ 3 _ hx]
  unfold specErrorPenalty
  rw [mul_comm]

theorem scoreBody_spec (w : List (String × ℚ)) (mt : Option ℚ) (ms : Option ℕ)
    (acts : List ActionLog) (dur : ℚ) (v : Option VerificationDump) :
    (scoreBody w mt ms acts dur v).error_action_penalty = specErrorPenalty acts ∧
    (scoreBody w mt ms acts dur v).score =
      some (max 0 (specPrePenaltyScore w mt ms acts dur v - specErrorPenalty acts)) := by
  unfold scoreBody specPrePenaltyScore specFallbackScore
  constructor
  · simpa using errorPenalty_round acts
  · have hpen := errorPenalty_round acts
    cases v with
    | none => simp [hpen]
    | some vd =>
        cases hvs : vd.score with
        | none => simp [hvs, hpen]
        | some s => simp [hvs, hpen]

/-- Claim C1: for every run, the reported `error_action_penalty` equals 0.02
times the number of recorded actions whose status is `"error"`, and the
stored final score equals `max(0.0, pre_penalty_score − penalty)`, with the
subtraction applied exactly once after the score is otherwise computed,
whether the score came from a verifier or from the fallback formula — shown
for the scoring computation `scoreBody`; the second conjunct records that
`EvaluationRunner._score` as written never reaches that computation, raising
`AttributeError` on the `scoring.max_steps` read for every run. -/
theorem claim_C1 :
    (∀ (w : List (String × ℚ)) (mt : Option ℚ) (ms : Option ℕ)
       (acts : List ActionLog) (dur : ℚ) (v : Option VerificationDump),
       (scoreBody w mt ms acts dur v).error_action_penalty = specErrorPenalty acts ∧
       (scoreBody w mt ms acts dur v).score =
         some (max 0 (specPrePenaltyScore w mt ms acts dur v - specErrorPenalty acts))) ∧
    runner_score
      ⟨⟨"cloud-eval-s3-simple-bucket", "S3 Bucket Creation", some 6⟩,
       ⟨[("latency", 1/2), ("steps", 1/2)], some 60⟩⟩ [] 0 none
      = .error "AttributeError: ScenarioScoring object has no attribute max_steps" := by
  exact ⟨fun w mt ms acts dur v => scoreBody_spec w mt ms acts dur v, rfl⟩

/-- Claim C3: the intended fallback (latency and step components, clamped,
weighted, summed) is what the scoring computation produces pre-penalty when
no verification result is available — but `EvaluationRunner._score` as
written raises `AttributeError` on every call, because it reads `max_steps`
from `ScenarioScoring`, which has no such field (the configured maximum
lives on `TaskMetadata`). -/
theorem claim_C3 :
    (∀ (sc : Scenario) (acts : List ActionLog) (dur : ℚ) (v : Option VerificationDump),
       runner_score sc acts dur v
         = .error "AttributeError: ScenarioScoring object has no attribute max_steps") ∧
    (∀ (w : List (String × ℚ)) (mt : Option ℚ) (ms : Option ℕ)
       (acts : List ActionLog) (dur : ℚ),
       (scoreBody w mt ms acts dur none).score =
         some (max 0 (specFallbackScore w mt ms acts.length dur - specErrorPenalty acts))) := by
  constructor
  · intro sc acts dur v
    rfl
  · intro w mt ms acts dur
    exact (scoreBody_spec w mt ms acts dur none).2

/-- Claim C6: an `ActionRecord` built by `_record_action` has status
`"error"` exactly when the tool result's reported exit code is non-zero and
status `"ok"` exactly when it is zero (in particular for empty output), and
the mapping does not depend on which tool produced the result. -/
theorem claim_C6 (t₁ t₂ : ToolDefinition) (args : List (String × String))
    (result : ToolResult) (ts : ℚ) :
    ((record_action t₁ args result ts).status = "error" ↔ result.return_code ≠ 0) ∧
    ((record_action t₁ args result ts).status = "ok" ↔ result.return_code = 0) ∧
    (record_action t₁ args result ts).status = (record_action t₂ args result ts).status := by
  by_cases h : result.return_code = 0 <;> simp [record_action, h]

/-- Claim C7: constructing `ScoringWeights` succeeds exactly when the
component weights sum to a value inside `[0.99, 1.01]`; outside that range
construction fails (a fatal configuration error at task-definition time,
not a runtime score of zero). -/
theorem claim_C7 (components : List (String × ScoringComponent)) :
    (∃ w, mkScoringWeights components = .ok w) ↔
      (99/100 ≤ weightTotal components ∧ weightTotal components ≤ 101/100) := by
  unfold mkScoringWeights
  constructor
  · intro ⟨w, hw⟩
    by_contra hrange
    rw [if_neg hrange] at hw
    exact Except.noConfusion hw
  · intro hrange
    rw [if_pos hrange]
    exact ⟨⟨components⟩, rfl⟩

/-- Claim C10: with the default split of 2, `compute_best_practice_tag_score`
always lands in `[0, cap]` — it is 0 whenever `cap ≤ 0`, is never negative,
and is clamped at `cap`, so a tag component never exceeds the weight passed
as its cap. -/
theorem claim_C10 (tags : List (String × String)) (cap : ℚ)
    (bpKeys : Option (List String)) :
    0 ≤ compute_best_practice_tag_score tags cap 2 bpKeys ∧
    compute_best_practice_tag_score tags cap 2 bpKeys ≤ max cap 0 ∧
    (cap ≤ 0 → compute_best_practice_tag_score tags cap 2 bpKeys = 0) := by
  unfold compute_best_practice_tag_score
  by_cases h : cap ≤ 0
  · simp [h]
  · push_neg at h
    rw [if_neg (not_le.mpr h)]
    have h2 : ((2 : ℚ) = 0) = False := by norm_num
    refine ⟨?_, ?_, fun hc => absurd hc (not_le.mpr h)⟩
    · apply le_min
      · apply mul_nonneg (Nat.cast_nonneg _)
        simp only [h2, if_false]
        positivity
      · exact h.le
    · exact le_trans (min_le_right _ _) (le_max_left _ _)

theorem claim_C10_witness :
    ((-1 : ℚ) ≤ 0) ∧
    compute_best_practice_tag_score [("Environment", "prod")] (-1) 2 none = 0 :=
  ⟨by norm_num,
   (claim_C10 [("Environment", "prod")] (-1) none).2.2 (by norm_num)⟩

theorem runAgentLoop_length_le (jl : String → Option (List (String × String)))
    (o : AgentOracle) (env : List (String × String)) :
    ∀ (fuel turn : ℕ) (acc res : List ActionRecord),
      runAgentLoop jl o env fuel turn acc = .ok res → res.length ≤ fuel + acc.length := by
  intro fuel
  induction fuel with
  | zero =>
      intro turn acc res h
      unfold runAgentLoop at h
      cases h
      simp
  | succ n ih =>
      intro turn acc res h
      unfold runAgentLoop at h
      cases hfc : (o.responses turn).function_call with
      | none =>
          simp only [hfc] at h
          cases h
          simp
      | some fc =>
          simp only [hfc] at h
          cases hargs : (if fc.arguments = "" then some [] else jl fc.arguments) with
          | none =>
              simp only [hargs] at h
              exact Except.noConfusion h
          | some args =>
              simp only [hargs] at h
              cases hreg : registryGet fc.name with
              | none =>
                  simp only [hreg] at h
                  cases h
                  simp
              | some tool =>
                  simp only [hreg] at h
                  cases hexec : tool.execute args env (o.subprocess turn) with
                  | error e =>
                      simp only [hexec] at h
                      exact Except.noConfusion h
                  | ok result =>
                      simp only [hexec] at h
                      have := ih (turn + 1)
                        (record_action tool args result (o.clock turn) :: acc) res h
                      simp at this
                      omega

/-- Claim C2: for every oracle (every sequence of model responses and tool
outcomes) the agent run records at most 6 tool-call actions — the loop
iterates at most the configured maximum of 6 turns and then stops
unconditionally, even if the model keeps requesting tool calls. -/
theorem claim_C2 (jl : String → Option (List (String × String)))
    (o : AgentOracle) (env : List (String × String)) :
    (runner_run_agent jl o env).length ≤ 6 := by
  unfold runner_run_agent
  cases hr : run_agent jl o env with
  | error e => simp
  | ok records =>
      simp only [List.length_map]
      unfold run_agent at hr
      cases hv : validateEnv env with
      | error e =>
          rw [hv] at hr
          exact Except.noConfusion hr
      | ok k =>
          rw [hv] at hr
          cases hm : dictGet env "OPENAI_MODEL" with
          | none =>
              rw [hm] at hr
              exact Except.noConfusion hr
          | some m =>
              rw [hm] at hr
              have := runAgentLoop_length_le jl o env 6 0 [] records hr
              simpa using this

/-- Claim C5: whenever the model's response is a tool call whose parsed name
is unknown to the registry (and whose argument JSON parses), the loop stops
at once with exactly the actions recorded before that point — no partial
record is created for the failed call. -/
theorem claim_C5 (jl : String → Option (List (String × String)))
    (o : AgentOracle) (env : List (String × String)) (fuel turn : ℕ)
    (acc : List ActionRecord) (fc : FunctionCall)
    (hresp : (o.responses turn).function_call = some fc)
    (hparse : (if fc.arguments = "" then some [] else jl fc.arguments).isSome)
    (hunknown : registryGet fc.name = none) :
    runAgentLoop jl o env (fuel + 1) turn acc = .ok acc.reverse := by
  obtain ⟨args, hargs⟩ := Option.isSome_iff_exists.mp hparse
  unfold runAgentLoop
  simp only [hresp, hargs, hunknown]

/-- Argument parser behavior for the concrete unknown-tool run: models
`json.loads` succeeding on the payload `good` and failing elsewhere. -/
def jl5 : String → Option (List (String × String)) :=
  fun s => if s = "good" then some [("command", "s3 ls")] else none

/-- Concrete oracle whose model always requests a tool that is not in the
registry. -/
def o5 : AgentOracle :=
  { responses := fun _ => ⟨some "", some ⟨"bogus_tool", ""⟩⟩,
    subprocess := fun _ => ⟨0, "", ""⟩,
    clock := fun _ => 0 }

/-- Environment for the concrete agent runs. -/
def env5 : List (String × String) :=
  [("OPENAI_API_KEY", "k"), ("OPENAI_MODEL", "gpt"), ("ENDPOINT_URL", "http://ls")]

theorem claim_C5_witness :
    (o5.responses 0).function_call = some ⟨"bogus_tool", ""⟩ ∧
    registryGet "bogus_tool" = none ∧
    runAgentLoop jl5 o5 env5 6 0 [] = .ok [] :=
  ⟨rfl, rfl, claim_C5 jl5 o5 env5 5 0 [] ⟨"bogus_tool", ""⟩ rfl (by decide) rfl⟩

/-- Argument parser behavior for the concrete malformed-arguments run. -/
def jl4 : String → Option (List (String × String)) :=
  fun s => if s = "good" then some [("command", "s3 ls")] else none

/-- Concrete oracle: the model first issues a well-formed `aws_cli` call,
then a call whose argument payload is malformed JSON. -/
def o4 : AgentOracle :=
  { responses := fun t =>
      if t = 0 then ⟨none, some ⟨"aws_cli", "good"⟩⟩
      else ⟨some "done", some ⟨"aws_cli", "bad"⟩⟩,
    subprocess := fun _ => ⟨0, "", ""⟩,
    clock := fun _ => 0 }

/-- The same oracle with the model finishing normally after the first call,
showing which action the first turn records. -/
def o4stop : AgentOracle :=
  { responses := fun t =>
      if t = 0 then ⟨none, some ⟨"aws_cli", "good"⟩⟩
      else ⟨some "done", none⟩,
    subprocess := fun _ => ⟨0, "", ""⟩,
    clock := fun _ => 0 }

/-- The action record produced by the first (well-formed) tool call. -/
def r4 : ActionRecord :=
  { timestamp := 0, action := "aws_cli",
    resource := "aws --endpoint-url http://ls s3 ls",
    status := "ok",
    metadata_args := [("command", "s3 ls")],
    metadata_result := { command := "s3 ls",
                         invoked_command := "aws --endpoint-url http://ls s3 ls",
                         return_code := 0, stdout := "", stderr := "" } }

/-- Claim C4 is false as stated: in this run the first turn records the
action `r4` (as the truncated run shows), the second turn's tool call has
malformed argument JSON, and the scenario is then scored with an empty
action list — the previously recorded action is discarded, not preserved.
The `JSONDecodeError` escapes `run_agent` (whose local `actions` list dies
with the stack frame) and `EvaluationRunner._run_agent` catches it and
returns `[]`. -/
theorem claim_C4_counterexample :
    run_agent jl4 o4stop env5 = .ok [r4] ∧
    run_agent jl4 o4 env5 = .error "JSONDecodeError" ∧
    runner_run_agent jl4 o4 env5 = [] := by
  refine ⟨rfl, rfl, rfl⟩

/-- Claim C4, amended: a tool call with malformed argument JSON makes the
agent loop raise `JSONDecodeError` (terminating it early); the orchestrator
catches the exception, so the suite is not aborted, but the scenario is
scored with an empty action list — actions recorded before the malformed
call are discarded, not preserved. -/
theorem claim_C4_amended :
    (∀ (jl : String → Option (List (String × String))) (o : AgentOracle)
       (env : List (String × String)) (fuel turn : ℕ) (acc : List ActionRecord)
       (fc : FunctionCall),
       (o.responses turn).function_call = some fc →
       fc.arguments ≠ "" →
       jl fc.arguments = none →
       runAgentLoop jl o env (fuel + 1) turn acc = .error "JSONDecodeError") ∧
    (∀ (jl : String → Option (List (String × String))) (o : AgentOracle)
       (env : List (String × String)) (e : String),
       run_agent jl o env = .error e → runner_run_agent jl o env = []) := by
  constructor
  · intro jl o env fuel turn acc fc hresp hne hparse
    unfold runAgentLoop
    simp only [hresp, if_neg hne, hparse]
  · intro jl o env e h
    unfold runner_run_agent
    rw [h]

theorem claim_C4_witness :
    ((o4.responses 1).function_call = some ⟨"aws_cli", "bad"⟩ ∧
     jl4 "bad" = none ∧
     runAgentLoop jl4 o4 env5 5 1 [r4] = .error "JSONDecodeError") ∧
    (run_agent jl4 o4 env5 = .error "JSONDecodeError" ∧
     runner_run_agent jl4 o4 env5 = []) :=
  ⟨⟨rfl, rfl,
    claim_C4_amended.1 jl4 o4 env5 4 1 [r4] ⟨"aws_cli", "bad"⟩ rfl (by decide) rfl⟩,
   ⟨rfl, claim_C4_amended.2 jl4 o4 env5 "JSONDecodeError" rfl⟩⟩

/-- A component result with its achieved value above its declared max, as
pydantic accepts it. -/
def c8Component : ScoringComponentResult :=
  ⟨"Tags applied", "", 1, 1/2⟩

/-- A fully constructible `VerificationResult` containing `c8Component`. -/
def c8Result : VerificationResult :=
  ⟨1, [("best_practice_tags", c8Component)], true, []⟩

/-- Claim C8 is false as stated: `ScoringComponentResult` validates `value`
and `max` against `[0,1]` independently, never against each other, so a
`VerificationResult` whose component has `value = 1.0` above its declared
`max = 0.5` constructs successfully. -/
theorem claim_C8_counterexample :
    mkScoringComponentResult "Tags applied" "" 1 (1/2) = .ok c8Component ∧
    mkVerificationResult 1 [("best_practice_tags", c8Component)] true [] = .ok c8Result ∧
    ¬ c8Component.value ≤ c8Component.max := by
  refine ⟨?_, ?_, ?_⟩
  · simp [mkScoringComponentResult, c8Component]
    norm_num
  · simp [mkVerificationResult, c8Result]
  · simp only [c8Component]
    norm_num

/-- Claim C8, amended: every constructible `VerificationResult` has a score
in `[0,1]`, and every constructible `ScoringComponentResult` has its value
in `[0,1]` and its declared max in `[0,1]`; the value is not constrained to
lie within the declared max. -/
theorem claim_C8_amended :
    (∀ (s : ℚ) (comps : List (String × ScoringComponentResult)) (p : Bool)
       (errs : List String) (r : VerificationResult),
       mkVerificationResult s comps p errs = .ok r → 0 ≤ r.score ∧ r.score ≤ 1) ∧
    (∀ (l d : String) (v m : ℚ) (c : ScoringComponentResult),
       mkScoringComponentResult l d v m = .ok c →
       (0 ≤ c.value ∧ c.value ≤ 1) ∧ (0 ≤ c.max ∧ c.max ≤ 1)) := by
  constructor
  · intro s comps p errs r h
    unfold mkVerificationResult at h
    by_cases hs : 0 ≤ s ∧ s ≤ 1
    · rw [if_neg (not_not_intro hs)] at h
      cases h
      exact hs
    · rw [if_pos hs] at h
      exact Except.noConfusion h
  · intro l d v m c h
    unfold mkScoringComponentResult at h
    by_cases hv : 0 ≤ v ∧ v ≤ 1
    · rw [if_neg (not_not_intro hv)] at h
      by_cases hm : 0 ≤ m ∧ m ≤ 1
      · rw [if_neg (not_not_intro hm)] at h
        cases h
        exact ⟨hv, hm⟩
      · rw [if_pos hm] at h
        exact Except.noConfusion h
    · rw [if_pos hv] at h
      exact Except.noConfusion h

theorem claim_C8_witness :
    (0 ≤ c8Result.score ∧ c8Result.score ≤ 1) ∧
    ((0 ≤ c8Component.value ∧ c8Component.value ≤ 1) ∧
     (0 ≤ c8Component.max ∧ c8Component.max ≤ 1)) :=
  ⟨claim_C8_amended.1 1 [("best_practice_tags", c8Component)] true [] c8Result
     (by simp [mkVerificationResult, c8Result]),
   claim_C8_amended.2 "Tags applied" "" 1 (1/2) c8Component
     (by simp [mkScoringComponentResult, c8Component]; norm_num)⟩

theorem bumpTask_comm (e : TaskSummary) (s₁ s₂ : Option ℚ) (p₁ p₂ : Bool) :
    bumpTask (bumpTask e s₁ p₁) s₂ p₂ = bumpTask (bumpTask e s₂ p₂) s₁ p₁ := by
  simp only [bumpTask, TaskSummary.mk.injEq]
  and_intros <;> first | trivial | apply add_right_comm

theorem updateTask_comm (m : String → Option TaskSummary) (k₁ k₂ : String)
    (s₁ s₂ : Option ℚ) (p₁ p₂ : Bool) :
    updateTask (updateTask m k₁ s₁ p₁) k₂ s₂ p₂ =
      updateTask (updateTask m k₂ s₂ p₂) k₁ s₁ p₁ := by
  funext k
  by_cases h12 : k₁ = k₂
  · subst h12
    simp only [updateTask]
    by_cases hk : k = k₁
    · simp [hk, bumpTask_comm]
    · simp [hk]
  · have h21 : ¬ k₂ = k₁ := fun h => h12 h.symm
    by_cases hk1 : k = k₁ <;> by_cases hk2 : k = k₂ <;>
      simp_all [updateTask]

theorem bumpDifficulty_comm (m : String → Option ℕ) (d₁ d₂ : Option String) :
    bumpDifficulty (bumpDifficulty m d₁) d₂ = bumpDifficulty (bumpDifficulty m d₂) d₁ := by
  cases d₁ with
  | none => cases d₂ <;> rfl
  | some k₁ =>
      cases d₂ with
      | none => rfl
      | some k₂ =>
          funext k
          by_cases h12 : k₁ = k₂
          · subst h12
            rfl
          · have h21 : ¬ k₂ = k₁ := fun h => h12 h.symm
            by_cases hk1 : k = k₁ <;> by_cases hk2 : k = k₂ <;>
              simp_all [bumpDifficulty]

theorem bumpModel_comm (m : String → Option TaskSummary) (mk₁ mk₂ : Option String)
    (s₁ s₂ : Option ℚ) (p₁ p₂ : Bool) :
    bumpModel (bumpModel m mk₁ s₁ p₁) mk₂ s₂ p₂ =
      bumpModel (bumpModel m mk₂ s₂ p₂) mk₁ s₁ p₁ := by
  cases mk₁ with
  | none => cases mk₂ <;> rfl
  | some k₁ =>
      cases mk₂ with
      | none => rfl
      | some k₂ => exact updateTask_comm m k₁ k₂ s₁ s₂ p₁ p₂

theorem bumpModelDifficulty_comm (m : String → String → Option TaskSummary)
    (mk₁ dk₁ mk₂ dk₂ : Option String) (s₁ s₂ : Option ℚ) (p₁ p₂ : Bool) :
    bumpModelDifficulty (bumpModelDifficulty m mk₁ dk₁ s₁ p₁) mk₂ dk₂ s₂ p₂ =
      bumpModelDifficulty (bumpModelDifficulty m mk₂ dk₂ s₂ p₂) mk₁ dk₁ s₁ p₁ := by
  cases mk₁ with
  | none => cases mk₂ <;> cases dk₂ <;> cases dk₁ <;> rfl
  | some k₁ =>
      cases dk₁ with
      | none => cases mk₂ <;> cases dk₂ <;> rfl
      | some d₁ =>
          cases mk₂ with
          | none => rfl
          | some k₂ =>
              cases dk₂ with
              | none => rfl
              | some d₂ =>
                  funext m'
                  by_cases h12 : k₁ = k₂
                  · subst h12
                    simp only [bumpModelDifficulty]
                    by_cases hm : m' = k₁
                    · simp [hm, updateTask_comm]
                    · simp [hm]
                  · have h21 : ¬ k₂ = k₁ := fun h => h12 h.symm
                    by_cases hm1 : m' = k₁ <;> by_cases hm2 : m' = k₂ <;>
                      simp_all [bumpModelDifficulty]

theorem updateSummary_comm (s : Summary) (r₁ r₂ : ReportData) :
    updateSummary (updateSummary s r₁) r₂ = updateSummary (updateSummary s r₂) r₁ := by
  simp only [updateSummary, Summary.mk.injEq]
  and_intros <;>
    first
      | trivial
      | apply add_right_comm
      | apply updateTask_comm
      | apply bumpDifficulty_comm
      | apply bumpModel_comm
      | apply bumpModelDifficulty_comm

theorem summaryStep_comm (s : Summary) (f g : ReportFile) :
    summaryStep (summaryStep s f) g = summaryStep (summaryStep s g) f := by
  rcases f with ⟨nf, df⟩
  rcases g with ⟨ng, dg⟩
  by_cases hf : nf = "summary.json"
  · simp [summaryStep, hf]
  · by_cases hg : ng = "summary.json"
    · simp [summaryStep, hf, hg]
    · cases df with
      | none => cases dg <;> simp [summaryStep, hf, hg]
      | some r₁ =>
          cases dg with
          | none => simp [summaryStep, hf, hg]
          | some r₂ => simp [summaryStep, hf, hg, updateSummary_comm]

theorem summaryStep_skip_none (s : Summary) (n : String) :
    summaryStep s (n, none) = s := by
  unfold summaryStep
  split <;> rfl

/-- Claim C9: aggregation is a pure fold over the visited report files, so
over an unchanged directory it yields the same statistics each run and is
independent of visit order (first conjunct, over any permutation of the
file list); the rollup file `summary.json` is excluded from the input set
— in particular re-aggregating after the first run wrote `summary.json`
changes nothing (second conjunct); and an unparseable report file anywhere
in the scan is skipped silently without affecting the rollup (third
conjunct). -/
theorem claim_C9 :
    (∀ (l₁ l₂ : List ReportFile), l₁.Perm l₂ →
       aggregate_reports l₁ = aggregate_reports l₂) ∧
    (∀ (l : List ReportFile) (d : Option ReportData),
       aggregate_reports (l ++ [("summary.json", d)]) = aggregate_reports l) ∧
    (∀ (l₁ l₂ : List ReportFile) (n : String),
       aggregate_reports (l₁ ++ (n, none) :: l₂) = aggregate_reports (l₁ ++ l₂)) := by
  refine ⟨?_, ?_, ?_⟩
  · intro l₁ l₂ hperm
    unfold aggregate_reports
    exact hperm.foldl_eq' (fun x _ y _ z => summaryStep_comm z x y) Summary.init
  · intro l d
    unfold aggregate_reports
    rw [List.foldl_append]
    simp [summaryStep]
  · intro l₁ l₂ n
    unfold aggregate_reports
    rw [List.foldl_append, List.foldl_cons, summaryStep_skip_none, ← List.foldl_append]

/-- A parsed report with a verifier verdict, used to exercise aggregation. -/
def repA : ReportFile :=
  ("run1/s3-bucket-100.json", some ⟨some true, some 1, some "t1", some "easy", some "gpt"⟩)

/-- A second parsed report for the same task, failing with score 0. -/
def repB : ReportFile :=
  ("run1/s3-bucket-200.json", some ⟨some false, some 0, some "t1", some "hard", some "gpt"⟩)

theorem claim_C9_witness :
    aggregate_reports [repA, repB] = aggregate_reports [repB, repA] ∧
    aggregate_reports ([repA, repB] ++ [("summary.json", none)]) =
      aggregate_reports [repA, repB] ∧
    aggregate_reports ([repA] ++ ("bad.json", none) :: [repB]) =
      aggregate_reports ([repA] ++ [repB]) :=
  ⟨claim_C9.1 [repA, repB] [repB, repA] (List.Perm.swap repB repA []),
   claim_C9.2.1 [repA, repB] none,
   claim_C9.2.2 [repA] [repB] "bad.json"⟩

/-- A weight set summing to exactly 1, as each task module declares. -/
def demoComponents : List (String × ScoringComponent) :=
  [("base", ⟨"base", "Resource correctness", 13/20, "", 0⟩),
   ("unique_name_or_runid", ⟨"unique_name_or_runid", "Unique name", 1/10, "", 0⟩),
   ("block_public_access", ⟨"block_public_access", "Public access block", 1/10, "", 0⟩),
   ("default_encryption", ⟨"default_encryption", "Default encryption", 1/10, "", 0⟩),
   ("best_practice_tags", ⟨"best_practice_tags", "Tags applied", 1/20, "", 0⟩)]

theorem claim_C7_witness :
    ∃ w, mkScoringWeights demoComponents = .ok w :=
  (claim_C7 demoComponents).mpr (by norm_num [weightTotal, demoComponents])
